import Mathlib

/-!
Verification of the HTTP gateway in `app.py` (a Flask front end that proxies
CRUD operations on a User resource to an upstream API and stores images in S3).

Shallow embedding conventions:
* An upstream HTTP call (`requests.get` / `post` / `put` / `delete`) either
  raises or yields a response.  The only part of a response the handlers
  inspect is its status code and the result of `response.json()`, so an
  upstream outcome is modelled as `CallResult`: `exn msg` when the call
  raises, `ok status body` otherwise, where `body : Option Json` is the
  parsed JSON body (`none` when `response.json()` would raise because the
  body is not parseable as JSON).
* A Flask handler response is `GatewayResponse`: either `jsonify(j), status`
  or a `redirect(location)`.
* A handler that can let a Python exception escape is `Except String _`
  valued; handlers whose bodies cannot raise are total functions.
-/

/-- JSON values, as produced by `response.json()` and consumed by `jsonify`. -/
inductive Json where
  | null : Json
  | str : String → Json
  | num : Int → Json
  | arr : List Json → Json
  | obj : List (String × Json) → Json

/-- Outcome of one upstream HTTP call: the call raised, or returned a
response with the given status code and (when parseable) JSON body. -/
inductive CallResult where
  | exn : String → CallResult
  | ok : Nat → Option Json → CallResult

/-- A response produced by a Flask handler: `jsonify(body), status`, or a
redirect to a location. -/
inductive GatewayResponse where
  | json : Json → Nat → GatewayResponse
  | redirect : String → GatewayResponse

/-- Status code of a gateway response (Flask redirects respond 302). -/
def GatewayResponse.status : GatewayResponse → Nat
  | .json _ s => s
  | .redirect _ => 302

/-- `GET /users/<int:user_id>` handler (`get_user`, app.py lines 164-174):
the `try` block covers both the upstream `requests.get` and
`response.json()`; any exception from either yields
500 `{"error": "API unreachable"}`; otherwise the parsed body is passed
through with the upstream status. -/
def get_user (call : CallResult) : GatewayResponse :=
  match call with
  | .exn _ => .json (Json.obj [("error", Json.str "API unreachable")]) 500
  | .ok _ none => .json (Json.obj [("error", Json.str "API unreachable")]) 500
  | .ok s (some j) => .json j s

/-- `DELETE /users/<int:user_id>/delete` handler (`delete_user`, app.py
lines 143-162): a raising upstream call gives 500 `{"error": "API
unreachable"}`; status 204 gives 200 `{"message": "User deleted
successfully"}`; otherwise the parsed body is passed through with the
upstream status, and an unparseable body gives `{"error": "Unexpected empty
response"}` with the upstream status. -/
def delete_user (call : CallResult) : GatewayResponse :=
  match call with
  | .exn _ => .json (Json.obj [("error", Json.str "API unreachable")]) 500
  | .ok s b =>
    if s = 204 then
      .json (Json.obj [("message", Json.str "User deleted successfully")]) 200
    else
      match b with
      | some j => .json j s
      | none => .json (Json.obj [("error", Json.str "Unexpected empty response")]) s

/-- `PUT|PATCH /users/<int:user_id>` handler (`update_user`, app.py lines
176-193): the `try` block covers only the upstream `requests.put`; on
status 200 the handler calls `response.json()` outside any `try`, so an
unparseable body makes the handler raise (modelled as `Except.error`). -/
def update_user (call : CallResult) : Except String GatewayResponse :=
  match call with
  | .exn _ => .ok (.json (Json.obj [("error", Json.str "API unreachable")]) 500)
  | .ok s b =>
    if s = 200 then
      match b with
      | some j => .ok (.json (Json.obj [("message", Json.str "User updated"), ("data", j)]) 200)
      | none => .error "requests.exceptions.JSONDecodeError"
    else
      .ok (.json (Json.obj [("error", Json.str "Failed to update user")]) s)

/-- The bucket base URL computed by `index` (app.py line 75):
`https://<bucket>.s3.<region>.amazonaws.com/`. -/
def s3_bucket_base (bucket region : String) : String :=
  "https://" ++ bucket ++ ".s3." ++ region ++ ".amazonaws.com/"

/-- The public image URL constructed by `add_user` (app.py line 111) for an
uploaded object key: `https://<bucket>.s3-<region>.amazonaws.com/<key>`. -/
def image_url_of (bucket region key : String) : String :=
  "https://" ++ bucket ++ ".s3-" ++ region ++ ".amazonaws.com/" ++ key

/-- The arguments `index` passes to `render_template` (app.py lines 72-76):
the user list and the bucket base URL string. -/
structure IndexPage where
  users : Json
  s3_bucket : String

/-- `GET /` handler (`index`, app.py lines 60-76): the `try` block covers
the upstream `requests.get` and `response.json()`; on any exception the
user list is replaced by the empty list, and the page is always rendered. -/
def index (bucket region : String) (call : CallResult) : IndexPage :=
  match call with
  | .ok _ (some j) => ⟨j, s3_bucket_base bucket region⟩
  | .ok _ none => ⟨Json.arr [], s3_bucket_base bucket region⟩
  | .exn _ => ⟨Json.arr [], s3_bucket_base bucket region⟩

/-- The multipart form fields read by `add_user` (app.py lines 82-87).
`image` is `some filename` when a (truthy) file was supplied and `none`
when the file field is empty/falsy. -/
structure FormData where
  name : String
  email : String
  institution : String
  position : String
  phone : String
  image : Option String

/-- The `user_data` dict POSTed upstream by `add_user` (app.py lines
118-125). -/
def user_data_json (f : FormData) (image_url : String) : Json :=
  Json.obj
    [("name", Json.str f.name),
     ("email", Json.str f.email),
     ("institution", Json.str f.institution),
     ("position", Json.str f.position),
     ("phone", Json.str f.phone),
     ("image_url", Json.str image_url)]

/-- Outbound side effects of `add_user`, in order: the email pre-check
`GET <API_URL>?email=<email>`, the S3 `upload_fileobj(image, bucket, key)`,
and the create `POST <API_URL>` with a JSON body. -/
inductive OutboundAction where
  | emailCheck : String → OutboundAction
  | s3Upload : String → String → OutboundAction
  | postUser : Json → OutboundAction

/-- Second half of `add_user` (app.py lines 117-141): build `user_data`
with the computed `image_url`, POST it upstream; a raising call gives 500
`{"error": "Failed connect to API"}`, status 409 gives 409 `{"error":
"Email already exists"}`, and any other status falls through to
`redirect(url_for("index"))`. -/
def add_user_post_step (f : FormData) (image_url : String) (acts : List OutboundAction)
    (postRes : CallResult) : List OutboundAction × GatewayResponse :=
  let ud := user_data_json f image_url
  let acts := acts ++ [OutboundAction.postUser ud]
  match postRes with
  | .exn _ => (acts, .json (Json.obj [("error", Json.str "Failed connect to API")]) 500)
  | .ok ps _ =>
    if ps = 409 then
      (acts, .json (Json.obj [("error", Json.str "Email already exists")]) 409)
    else
      (acts, .redirect "/")

/-- `POST /users` handler (`add_user`, app.py lines 78-141).  Parameters
`checkRes`, `uploadRes` and `postRes` are the outcomes the environment
would give to the pre-check call, the S3 upload and the create POST; the
result pairs the list of outbound actions actually performed with the
handler's response.  Sequence: email pre-check (raise → 500 `{"error":
"API Gateway unreachable"}`, 409 → 409 `{"error": "Email already
exists"}`), then if a file was supplied upload it under key
`users/<filename>` (failure → 500 with the raw error text) and set
`image_url` from bucket, region and key, else `image_url = ""`, then the
create POST. -/
def add_user (bucket region : String) (f : FormData) (checkRes : CallResult)
    (uploadRes : Except String Unit) (postRes : CallResult) :
    List OutboundAction × GatewayResponse :=
  let checkActs := [OutboundAction.emailCheck f.email]
  match checkRes with
  | .exn _ => (checkActs, .json (Json.obj [("error", Json.str "API Gateway unreachable")]) 500)
  | .ok cs _ =>
    if cs = 409 then
      (checkActs, .json (Json.obj [("error", Json.str "Email already exists")]) 409)
    else
      match f.image with
      | none => add_user_post_step f "" checkActs postRes
      | some fn =>
        let key := "users/" ++ fn
        let acts := checkActs ++ [OutboundAction.s3Upload bucket key]
        match uploadRes with
        | .error e => (acts, .json (Json.obj [("error", Json.str e)]) 500)
        | .ok _ => add_user_post_step f (image_url_of bucket region key) acts postRes

/-- A Flask route registration: URL rule and allowed methods, with the
name of the handler function. -/
structure Route where
  path : String
  methods : List String
  handler : String
deriving DecidableEq

/-- The five routes registered in app.py (lines 60, 78, 143, 164, 176). -/
def routes : List Route :=
  [⟨"/", ["GET"], "index"⟩,
   ⟨"/users", ["POST"], "add_user"⟩,
   ⟨"/users/<int:user_id>/delete", ["DELETE"], "delete_user"⟩,
   ⟨"/users/<int:user_id>", ["GET"], "get_user"⟩,
   ⟨"/users/<int:user_id>", ["PUT", "PATCH"], "update_user"⟩]

/-- The upstream request issued by `delete_user` (app.py line 148):
`requests.delete(f"{API_URL}/{user_id}")`, as (method, URL). -/
def delete_forward (api_url : String) (user_id : Nat) : String × String :=
  ("DELETE", api_url ++ "/" ++ toString user_id)

/-- Field lookup in a JSON object, as Python dict access on a parsed dict. -/
def lookupField : List (String × Json) → String → Option Json
  | [], _ => none
  | (k, v) :: rest, key => if k = key then some v else lookupField rest key

/-- Field of a JSON value when it is an object. -/
def jsonField (j : Json) (key : String) : Option Json :=
  match j with
  | .obj fields => lookupField fields key
  | _ => none

/-!  Claims  -/

/-- Claim C1, counterexample: when the upstream GET succeeds with status
200 but a body that is not parseable as JSON, `get_user` responds 500
`{"error": "API unreachable"}`, not a verbatim pass-through of the
upstream status 200 — so pass-through does not hold for every upstream
status and body. -/
theorem get_user_nonjson_counterexample :
    get_user (CallResult.ok 200 none) =
      GatewayResponse.json (Json.obj [("error", Json.str "API unreachable")]) 500 ∧
    (get_user (CallResult.ok 200 none)).status ≠ 200 :=
  ⟨rfl, by decide⟩

/-- Claim C1 (amended): for every `GET /users/<id>` request, when the
upstream call succeeds and its body parses as JSON the gateway passes
through the parsed body and the upstream status verbatim; when the
upstream call raises, or succeeds with a body that is not parseable as
JSON, the gateway responds 500 `{"error": "API unreachable"}`. -/
theorem get_user_passthrough (s : Nat) (j : Json) (m : String) :
    get_user (CallResult.ok s (some j)) = GatewayResponse.json j s ∧
    get_user (CallResult.ok s none) =
      GatewayResponse.json (Json.obj [("error", Json.str "API unreachable")]) 500 ∧
    get_user (CallResult.exn m) =
      GatewayResponse.json (Json.obj [("error", Json.str "API unreachable")]) 500 :=
  ⟨rfl, rfl, rfl⟩

/-- Claim C2, counterexample: the update handler, on an upstream 200
response whose body is not parseable as JSON, raises (the
`response.json()` call on app.py line 190 sits outside the handler's
`try` block) instead of returning a response. -/
theorem update_user_raises_counterexample :
    update_user (CallResult.ok 200 none) =
      Except.error "requests.exceptions.JSONDecodeError" :=
  rfl

/-- Claim C2 (amended): every handler catches exceptions raised by the
upstream call itself, but the update handler parses the 200 response body
outside its `try` block: `update_user` raises exactly when the upstream
call succeeds with status 200 and a body that is not parseable as JSON;
in every other case (the call raising included) it returns a response. -/
theorem update_user_raises_iff (call : CallResult) :
    (∃ e, update_user call = Except.error e) ↔ call = CallResult.ok 200 none := by
  constructor
  · rintro ⟨e, he⟩
    match call with
    | .exn m => simp [update_user] at he
    | .ok s b =>
      by_cases hs : s = 200
      · subst hs
        cases b with
        | some j => simp [update_user] at he
        | none => rfl
      · simp [update_user, hs] at he
  · rintro rfl
    exact ⟨_, rfl⟩

/-- Claim C3, counterexample: no registered route with method DELETE has
the URL rule `/users/<int:user_id>` (the rule Flask writes for the spec's
`/users/<id>`, as the GET and PUT/PATCH routes show): the delete route is
registered elsewhere. -/
theorem delete_route_counterexample :
    ¬ ∃ r ∈ routes, "DELETE" ∈ r.methods ∧ r.path = "/users/<int:user_id>" := by
  decide

/-- Claim C3 (amended): the delete operation is exposed at HTTP path
`/users/<int:user_id>/delete` (not `/users/<int:user_id>`) with method
DELETE, and it forwards `DELETE <API_URL>/<id>` to the upstream. -/
theorem delete_route_registration (api_url : String) (user_id : Nat) :
    (⟨"/users/<int:user_id>/delete", ["DELETE"], "delete_user"⟩ : Route) ∈ routes ∧
    delete_forward api_url user_id = ("DELETE", api_url ++ "/" ++ toString user_id) :=
  ⟨by decide, rfl⟩

/-- Claim C8: for every index request, if the upstream list call raises or
its body is not parseable as JSON, the handler substitutes the empty user
list and still renders the page; for every upstream outcome whatsoever the
page is rendered (with the bucket base URL), never a 500. -/
theorem index_renders_on_failure (bucket region m : String) (s : Nat) (call : CallResult) :
    index bucket region (CallResult.exn m) = ⟨Json.arr [], s3_bucket_base bucket region⟩ ∧
    index bucket region (CallResult.ok s none) = ⟨Json.arr [], s3_bucket_base bucket region⟩ ∧
    (index bucket region call).s3_bucket = s3_bucket_base bucket region := by
  refine ⟨rfl, rfl, ?_⟩
  cases call with
  | exn _ => rfl
  | ok s2 b => cases b <;> rfl

/-- Claim C4: when the email pre-check returns 409 the gateway responds
409 `{"error": "Email already exists"}`, and when the pre-check raises it
responds 500 `{"error": "API Gateway unreachable"}`; in both cases the
only outbound action performed is the pre-check itself — no S3 upload and
no upstream POST. -/
theorem add_user_precheck_short_circuit (bucket region : String) (f : FormData)
    (cb : Option Json) (up : Except String Unit) (post : CallResult) (m : String) :
    add_user bucket region f (CallResult.ok 409 cb) up post =
      ([OutboundAction.emailCheck f.email],
       GatewayResponse.json (Json.obj [("error", Json.str "Email already exists")]) 409) ∧
    add_user bucket region f (CallResult.exn m) up post =
      ([OutboundAction.emailCheck f.email],
       GatewayResponse.json (Json.obj [("error", Json.str "API Gateway unreachable")]) 500) ∧
    (∀ b k, OutboundAction.s3Upload b k ∉ (add_user bucket region f (CallResult.ok 409 cb) up post).1) ∧
    (∀ ud, OutboundAction.postUser ud ∉ (add_user bucket region f (CallResult.ok 409 cb) up post).1) ∧
    (∀ b k, OutboundAction.s3Upload b k ∉ (add_user bucket region f (CallResult.exn m) up post).1) ∧
    (∀ ud, OutboundAction.postUser ud ∉ (add_user bucket region f (CallResult.exn m) up post).1) := by
  refine ⟨rfl, rfl, ?_, ?_, ?_, ?_⟩ <;> intros <;> simp [add_user]

/-- Claim C5: for every create request where the pre-check succeeds with a
status other than 409, the upload step succeeds or is skipped (no image),
and the create POST succeeds with a status other than 409, the gateway
responds with a redirect to the index route `/`. -/
theorem add_user_success_redirect (bucket region : String) (f : FormData) (cs : Nat)
    (cb : Option Json) (up : Except String Unit) (ps : Nat) (pb : Option Json)
    (h1 : cs ≠ 409) (h2 : ps ≠ 409) (h3 : f.image = none ∨ up = Except.ok ()) :
    (add_user bucket region f (CallResult.ok cs cb) up (CallResult.ok ps pb)).2 =
      GatewayResponse.redirect "/" := by
  rcases h3 with him | hup
  · simp [add_user, add_user_post_step, h1, h2, him]
  · cases hi : f.image with
    | none => simp [add_user, add_user_post_step, h1, h2, hi]
    | some fn => simp [add_user, add_user_post_step, h1, h2, hi, hup]

/-- Claim C5, witness: the spec's end-to-end example — form fields
(name="A", email="a@x.com", institution="I", position="P", phone="000"),
no image, pre-check status 200, create status 201 — redirects to `/`. -/
theorem add_user_success_redirect_witness :
    (200 : Nat) ≠ 409 ∧ (201 : Nat) ≠ 409 ∧
    ((⟨"A", "a@x.com", "I", "P", "000", none⟩ : FormData).image = none ∨
      (Except.ok () : Except String Unit) = Except.ok ()) ∧
    (add_user "bkt" "reg" ⟨"A", "a@x.com", "I", "P", "000", none⟩
        (CallResult.ok 200 none) (Except.ok ()) (CallResult.ok 201 none)).2 =
      GatewayResponse.redirect "/" :=
  ⟨by decide, by decide, Or.inl rfl,
    add_user_success_redirect "bkt" "reg" ⟨"A", "a@x.com", "I", "P", "000", none⟩
      200 none (Except.ok ()) 201 none (by decide) (by decide) (Or.inl rfl)⟩

/-- Claim C6: for every delete request, an upstream 204 (whatever its
body) gives 200 `{"message": "User deleted successfully"}`; any other
upstream status passes through the parsed body with the upstream status,
and an unparseable body gives `{"error": "Unexpected empty response"}`
with the upstream status. -/
theorem delete_user_status_mapping (s : Nat) (j : Json) (h : s ≠ 204) :
    (∀ b : Option Json, delete_user (CallResult.ok 204 b) =
      GatewayResponse.json (Json.obj [("message", Json.str "User deleted successfully")]) 200) ∧
    delete_user (CallResult.ok s (some j)) = GatewayResponse.json j s ∧
    delete_user (CallResult.ok s none) =
      GatewayResponse.json (Json.obj [("error", Json.str "Unexpected empty response")]) s :=
  ⟨fun _ => rfl, by simp [delete_user, h], by simp [delete_user, h]⟩

/-- Claim C6, witness: instance of the delete status mapping at upstream
status 404 and body `null`. -/
theorem delete_user_status_mapping_witness :
    (404 : Nat) ≠ 204 ∧
    ((∀ b : Option Json, delete_user (CallResult.ok 204 b) =
      GatewayResponse.json (Json.obj [("message", Json.str "User deleted successfully")]) 200) ∧
    delete_user (CallResult.ok 404 (some Json.null)) = GatewayResponse.json Json.null 404 ∧
    delete_user (CallResult.ok 404 none) =
      GatewayResponse.json (Json.obj [("error", Json.str "Unexpected empty response")]) 404) :=
  ⟨by decide, delete_user_status_mapping 404 Json.null (by decide)⟩

/-- Claim C7: for every update request whose forwarded call does not
raise, upstream status 200 (with a JSON-parseable body) is treated as
success, wrapped as `{"message": "User updated", "data": <upstream
body>}`; every other upstream status gives `{"error": "Failed to update
user"}` with the upstream status preserved. -/
theorem update_user_status_mapping (s : Nat) (b : Option Json) (j : Json) (h : s ≠ 200) :
    update_user (CallResult.ok s b) =
      Except.ok (GatewayResponse.json (Json.obj [("error", Json.str "Failed to update user")]) s) ∧
    update_user (CallResult.ok 200 (some j)) =
      Except.ok (GatewayResponse.json
        (Json.obj [("message", Json.str "User updated"), ("data", j)]) 200) :=
  ⟨by simp [update_user, h], rfl⟩

/-- Claim C7, witness: instance of the update status mapping at upstream
status 404 with unparseable body, and a 200 with body `null`. -/
theorem update_user_status_mapping_witness :
    (404 : Nat) ≠ 200 ∧
    (update_user (CallResult.ok 404 none) =
      Except.ok (GatewayResponse.json (Json.obj [("error", Json.str "Failed to update user")]) 404) ∧
    update_user (CallResult.ok 200 (some Json.null)) =
      Except.ok (GatewayResponse.json
        (Json.obj [("message", Json.str "User updated"), ("data", Json.null)]) 200)) :=
  ⟨by decide, update_user_status_mapping 404 none Json.null (by decide)⟩

/-- Claim C9: for every create request in which no file is supplied, no S3
upload action appears among the outbound actions, and every JSON body
POSTed to the upstream has `image_url` equal to the empty string. -/
theorem add_user_no_image (bucket region : String) (f : FormData) (check : CallResult)
    (up : Except String Unit) (post : CallResult) (h : f.image = none) :
    (∀ b k, OutboundAction.s3Upload b k ∉ (add_user bucket region f check up post).1) ∧
    (∀ ud, OutboundAction.postUser ud ∈ (add_user bucket region f check up post).1 →
      jsonField ud "image_url" = some (Json.str "")) := by
  have hfield : jsonField (user_data_json f "") "image_url" = some (Json.str "") := rfl
  constructor
  · intro b k
    cases check with
    | exn m => simp [add_user]
    | ok cs cb =>
      by_cases hcs : cs = 409
      · simp [add_user, hcs]
      · cases post with
        | exn m2 => simp [add_user, add_user_post_step, hcs, h]
        | ok ps pb =>
          by_cases hps : ps = 409 <;>
            simp [add_user, add_user_post_step, hcs, hps, h]
  · intro ud hud
    cases check with
    | exn m => simp [add_user] at hud
    | ok cs cb =>
      by_cases hcs : cs = 409
      · simp [add_user, hcs] at hud
      · cases post with
        | exn m2 =>
          simp [add_user, add_user_post_step, hcs, h] at hud
          subst hud
          exact hfield
        | ok ps pb =>
          by_cases hps : ps = 409 <;>
            [skip; skip] <;>
            · simp [add_user, add_user_post_step, hcs, hps, h] at hud
              subst hud
              exact hfield

/-- Claim C9, witness: a concrete create request with no file, pre-check
200 and create 201. -/
theorem add_user_no_image_witness :
    (⟨"A", "a@x.com", "I", "P", "000", none⟩ : FormData).image = none ∧
    ((∀ b k, OutboundAction.s3Upload b k ∉
      (add_user "bkt2" "reg2" ⟨"A", "a@x.com", "I", "P", "000", none⟩
        (CallResult.ok 200 none) (Except.ok ()) (CallResult.ok 201 none)).1) ∧
    (∀ ud, OutboundAction.postUser ud ∈
      (add_user "bkt2" "reg2" ⟨"A", "a@x.com", "I", "P", "000", none⟩
        (CallResult.ok 200 none) (Except.ok ()) (CallResult.ok 201 none)).1 →
      jsonField ud "image_url" = some (Json.str ""))) :=
  ⟨rfl, add_user_no_image "bkt2" "reg2" ⟨"A", "a@x.com", "I", "P", "000", none⟩
    (CallResult.ok 200 none) (Except.ok ()) (CallResult.ok 201 none) rfl⟩

/-- Claim C10: for every non-empty bucket and region, the bucket base URL
the index page receives (`https://<bucket>.s3.<region>.amazonaws.com/`) is
not a prefix of the image URL stored for a created user
(`https://<bucket>.s3-<region>.amazonaws.com/<key>`): the host parts
differ at `.s3.` versus `.s3-`. -/
theorem bucket_base_not_prefix_of_image_url (B R K : String)
    (hB : B ≠ "") (hR : R ≠ "") :
    ¬ (s3_bucket_base B R).data <+: (image_url_of B R K).data := by
  rintro ⟨t, ht⟩
  simp only [s3_bucket_base, image_url_of, String.data_append, List.append_assoc] at ht
  have ht1 := List.append_cancel_left ht
  have ht2 := List.append_cancel_left ht1
  simp only [List.cons_append, List.nil_append] at ht2
  injection ht2 with hc h3
  injection h3 with hc h3
  injection h3 with hc h3
  injection h3 with hc h3
  exact absurd hc (by decide)

/-- Claim C10, witness: concrete non-empty bucket and region for which the
index bucket base URL is not a prefix of the stored image URL. -/
theorem bucket_base_not_prefix_of_image_url_witness :
    ("mybucket" : String) ≠ "" ∧ ("us-east-1" : String) ≠ "" ∧
    ¬ (s3_bucket_base "mybucket" "us-east-1").data <+:
      (image_url_of "mybucket" "us-east-1" "users/pic.png").data :=
  ⟨by decide, by decide,
    bucket_base_not_prefix_of_image_url "mybucket" "us-east-1" "users/pic.png"
      (by decide) (by decide)⟩
